import Mathlib

/-!
Verification development for the prien-charger repository.

The definitions below are a shallow embedding of the TypeScript source:

- src/src/app/api/charger/route.ts        (charger read endpoint, cache, fallback)
- src/src/app/api/charger-info/route.ts   (plain-HTTP scraping endpoint)
- src/src/app/api/update-status/route.ts  (manual status write endpoint)
- src/src/lib/charger-data.ts             (client-side reconciliation with overrides)
- src/unnamed/part_002                    (route variant holding getBadgeStatusMap)

Stateful module-level maps (the response cache, the user status store) become
explicit association lists passed in and returned.  Network fetches and the
headless-browser DOM extraction become explicit inputs of type Except/Option:
a value of Except.error m stands for a thrown exception with message m, and
the extracted DOM data (badge class, badge text, price texts) is an input,
since the HTML parser itself is an external collaborator.  Timestamps are
naturals (milliseconds); locale date formatting is an abstract function
parameter.  JavaScript string falsiness (empty string) is modelled explicitly
where the source relies on it.
-/

/-- Whether the first character list starts the second one. -/
def startsCharList (needle hay : List Char) : Bool :=
  match needle, hay with
  | [], _ => true
  | _ :: _, [] => false
  | a :: n, b :: h => a == b && startsCharList n h

/-- Whether the first character list occurs contiguously inside the second. -/
def isInfixCharList (needle hay : List Char) : Bool :=
  match hay with
  | [] => needle == []
  | c :: t => startsCharList needle (c :: t) || isInfixCharList needle t

/-- JavaScript includes on strings: needle occurs as a contiguous substring. -/
def strIncludes (hay needle : String) : Bool :=
  isInfixCharList needle.data hay.data

/-- JavaScript toLowerCase restricted to ASCII letters, which is all the
source compares (the non-ASCII characters in the compared literals are
already lower case). -/
def lowerStr (s : String) : String :=
  String.mk (s.data.map Char.toLower)

/-- JavaScript String.trim: strip whitespace from both ends. -/
def strTrim (s : String) : String :=
  String.mk (((s.data.dropWhile Char.isWhitespace).reverse.dropWhile Char.isWhitespace).reverse)

/-- Lookup in an association list, modelling a JavaScript object used as map. -/
def lookupA {α : Type} (m : List (String × α)) (k : String) : Option α :=
  match m with
  | [] => none
  | (k₂, v) :: rest => if k₂ = k then some v else lookupA rest k

/-- Keyed assignment into an association list (object[k] = v). -/
def insertA {α : Type} (m : List (String × α)) (k : String) (v : α) : List (String × α) :=
  (k, v) :: m.filter (fun p => p.1 != k)

/-- Keyed deletion from an association list (delete object[k]). -/
def eraseA {α : Type} (m : List (String × α)) (k : String) : List (String × α) :=
  m.filter (fun p => p.1 != k)

/-! ## Registry data and deterministic status (src/src/app/api/charger/route.ts) -/

/-- Static registry attributes for one charger (interface ChargerInfo). -/
structure ChargerInfo where
  id : String
  location : String
  steckertyp : String
  leistung : String
  preis : String
  address : String
deriving DecidableEq

/-- The CHARGER_DATA registry map of src/src/app/api/charger/route.ts. -/
def CHARGER_DATA (key : String) : Option ChargerInfo :=
  if key = "DE*MDS*E006234" then
    some ⟨"DE*MDS*E006234", "Ladestation 1", "Typ 2", "22 kW", "0,49 €/kWh", "Prien am Chiemsee, 83209"⟩
  else if key = "DE*MDS*E006198" then
    some ⟨"DE*MDS*E006198", "Ladestation 2", "Typ 2", "22 kW", "0,49 €/kWh", "Prien am Chiemsee, 83209"⟩
  else if key = "DE*PRI*E000001" then
    some ⟨"DE*PRI*E000001", "Ladestation 3", "CCS", "50 kW", "0,59 €/kWh", "Prien am Chiemsee, 83209"⟩
  else if key = "DE*PRI*E000002" then
    some ⟨"DE*PRI*E000002", "Ladestation 4", "CCS", "50 kW", "0,59 €/kWh", "Prien am Chiemsee, 83209"⟩
  else none

/-- Default registry record synthesized for unknown chargers
(src/src/app/api/charger/route.ts lines 117 to 126). -/
def defaultChargerInfo (evseId : String) : ChargerInfo :=
  ⟨evseId, "Charger " ++ evseId, "Typ 2", "22 kW", "0,49 €/kWh", "Prien am Chiemsee, 83209"⟩

/-- Deterministic status for a charger id.  JavaScript charCodeAt is modelled
by the code point, identical for the ASCII ids involved
(src/src/app/api/charger/route.ts lines 64 to 76, also src/unnamed/part_002). -/
def getStatusForCharger (chargerId : String) : String :=
  if chargerId = "DE*MDS*E006234" then
    "maintenance"
  else if chargerId = "DE*MDS*E006198" ∨ chargerId = "DE*PRI*E000001" ∨ chargerId = "DE*PRI*E000002" then
    "available"
  else
    let hash := chargerId.data.foldl (fun acc c => acc + c.toNat) 0
    let statuses := ["available", "charging", "maintenance", "error"]
    statuses.getD (hash % statuses.length) "unknown"

/-- German display text for a status (src/src/app/api/charger/route.ts lines 79 to 92). -/
def getStatusText (status : String) : String :=
  if status = "available" then "Verfügbar"
  else if status = "charging" then "Besetzt"
  else if status = "maintenance" then "Wartung"
  else if status = "error" then "Fehler"
  else "Unbekannt"

/-- Badge class to status mapping of the route variant
(src/unnamed/part_002 lines 96 to 108). -/
def getBadgeStatusMap (badgeClass : String) (statusText : String) : String :=
  if strIncludes badgeClass "bg-success" then "available"
  else if strIncludes badgeClass "bg-warning" then "maintenance"
  else if strIncludes badgeClass "bg-danger" then "error"
  else if strIncludes badgeClass "bg-secondary" || strIncludes (lowerStr statusText) "besetzt" then "charging"
  else "unknown"


/-! ## Charger read endpoint (src/src/app/api/charger/route.ts) -/

/-- Data pulled out of the rendered page by the browser evaluation
(route.ts lines 195 to 216): badge text, badge class attribute, price texts. -/
structure ExtractedData where
  statusText : Option String
  statusClass : Option String
  prices : List String
deriving DecidableEq

/-- Status determination from the extracted badge (route.ts lines 220 to 250).
JavaScript truthiness of the text and class strings (empty string is falsy)
is modelled by the explicit emptiness tests.  Returns (status, statusText)
before the deterministic fallback of line 253. -/
def extractStatus (d : ExtractedData) : String × String :=
  match d.statusText with
  | none => ("unknown", "")
  | some txt =>
    if txt = "" then ("unknown", "") else
    match d.statusClass with
    | some cls =>
      if cls = "" then
        if strIncludes (lowerStr txt) "available" || strIncludes (lowerStr txt) "verfügbar" then ("available", txt)
        else if strIncludes (lowerStr txt) "maintenance" || strIncludes (lowerStr txt) "wartung" then ("maintenance", txt)
        else if strIncludes (lowerStr txt) "error" || strIncludes (lowerStr txt) "fehler" then ("error", txt)
        else if strIncludes (lowerStr txt) "charging" || strIncludes (lowerStr txt) "besetzt" then ("charging", txt)
        else ("unknown", txt)
      else if strIncludes cls "bg-success" then ("available", txt)
      else if strIncludes cls "bg-warning" then ("maintenance", txt)
      else if strIncludes cls "bg-danger" then ("error", txt)
      else if strIncludes cls "bg-secondary" || strIncludes (lowerStr txt) "besetzt" then ("charging", txt)
      else ("unknown", txt)
    | none =>
      if strIncludes (lowerStr txt) "available" || strIncludes (lowerStr txt) "verfügbar" then ("available", txt)
      else if strIncludes (lowerStr txt) "maintenance" || strIncludes (lowerStr txt) "wartung" then ("maintenance", txt)
      else if strIncludes (lowerStr txt) "error" || strIncludes (lowerStr txt) "fehler" then ("error", txt)
      else if strIncludes (lowerStr txt) "charging" || strIncludes (lowerStr txt) "besetzt" then ("charging", txt)
      else ("unknown", txt)

/-- Operator name literal used across the routes. -/
def OPERATOR_NAME : String := "AUG. PRIEN Bauunternehmung (GmbH & Co. KG)"

/-- Response payload of the charger read endpoint.  Success paths carry no
errorDetail; the catch path of route.ts line 325 carries some message. -/
structure ChargerResponse where
  evseId : String
  status : String
  location : String
  operator : String
  address : String
  plugType : String
  power : String
  steckertyp : String
  leistung : String
  preis : String
  lastUpdated : Nat
  isRealTime : Bool
  statusText : String
  errorDetail : Option String
deriving DecidableEq

/-- Cache entry of the charger route (route.ts lines 4 to 7). -/
structure CacheEntry where
  data : ChargerResponse
  timestamp : Nat
deriving DecidableEq

/-- Result of one GET on the charger route. -/
inductive GetResult where
  | badRequest (error : String)
  | ok (resp : ChargerResponse)
deriving DecidableEq

/-- Vercel branch response (route.ts lines 129 to 157): deterministic status,
registry attributes. -/
def vercelResponse (evseId : String) (cd : ChargerInfo) (now : Nat) : ChargerResponse :=
  let status := getStatusForCharger evseId
  { evseId := evseId, status := status, location := cd.location, operator := OPERATOR_NAME,
    address := cd.address, plugType := cd.steckertyp, power := cd.leistung,
    steckertyp := cd.steckertyp, leistung := cd.leistung, preis := cd.preis,
    lastUpdated := now, isRealTime := true, statusText := getStatusText status,
    errorDetail := none }

/-- Puppeteer branch response (route.ts lines 220 to 295): extracted status
with deterministic fallback when unknown, first price text containing a price
or the registry default. -/
def scrapedResponse (evseId : String) (cd : ChargerInfo) (ed : ExtractedData) (now : Nat) :
    ChargerResponse :=
  let s0 := extractStatus ed
  let st := if s0.1 = "unknown" then
      (getStatusForCharger evseId, getStatusText (getStatusForCharger evseId))
    else s0
  let priceValue := ed.prices.headD ""
  let finalPrice := if priceValue = "" then cd.preis else priceValue
  { evseId := evseId, status := st.1, location := cd.location, operator := OPERATOR_NAME,
    address := cd.address, plugType := cd.steckertyp, power := cd.leistung,
    steckertyp := cd.steckertyp, leistung := cd.leistung, preis := finalPrice,
    lastUpdated := now, isRealTime := true, statusText := st.2, errorDetail := none }

/-- Catch-path response (route.ts lines 302 to 328).  The JavaScript
or-defaults compare registry fields that are never empty strings, so an
option match is equivalent. -/
def fallbackResponse (evseId : String) (msg : String) (now : Nat) : ChargerResponse :=
  let status := getStatusForCharger evseId
  { evseId := evseId, status := status,
    location := match CHARGER_DATA evseId with
      | some cd => cd.location
      | none => "Charger " ++ evseId,
    operator := OPERATOR_NAME,
    address := match CHARGER_DATA evseId with
      | some cd => cd.address
      | none => "Prien am Chiemsee, 83209",
    plugType := match CHARGER_DATA evseId with
      | some cd => cd.steckertyp
      | none => "Typ 2",
    power := match CHARGER_DATA evseId with
      | some cd => cd.leistung
      | none => "22 kW",
    steckertyp := match CHARGER_DATA evseId with
      | some cd => cd.steckertyp
      | none => "Typ 2",
    leistung := match CHARGER_DATA evseId with
      | some cd => cd.leistung
      | none => "22 kW",
    preis := match CHARGER_DATA evseId with
      | some cd => cd.preis
      | none => "0,49 €/kWh",
    lastUpdated := now, isRealTime := true, statusText := getStatusText status,
    errorDetail := some msg }

/-- Cache-miss resolution of the charger route (route.ts lines 111 to 329).
The vercel flag selects the deterministic branch; fetched is the combined
outcome of the browser navigation and extraction, with Except.error for any
thrown exception.  Only the two success branches write the cache. -/
def chargerResolve (evseId : String) (vercel : Bool) (fetched : Except String ExtractedData)
    (now : Nat) (cache : List (String × CacheEntry)) :
    GetResult × List (String × CacheEntry) :=
  let cd := (CHARGER_DATA evseId).getD (defaultChargerInfo evseId)
  if vercel then
    let r := vercelResponse evseId cd now
    (GetResult.ok r, insertA cache evseId ⟨r, now⟩)
  else
    match fetched with
    | Except.ok ed =>
      let r := scrapedResponse evseId cd ed now
      (GetResult.ok r, insertA cache evseId ⟨r, now⟩)
    | Except.error msg => (GetResult.ok (fallbackResponse evseId msg now), cache)

/-- One GET on the charger route (route.ts lines 94 to 330).  Natural
subtraction agrees with the JavaScript age test for every pair of
timestamps, since a negative age also passes the comparison. -/
def chargerGET (evseId? : Option String) (bypass vercel : Bool)
    (fetched : Except String ExtractedData) (now : Nat)
    (cache : List (String × CacheEntry)) : GetResult × List (String × CacheEntry) :=
  match evseId? with
  | none => (GetResult.badRequest "Missing evseId parameter", cache)
  | some evseId =>
    if evseId = "" then (GetResult.badRequest "Missing evseId parameter", cache)
    else
      match lookupA cache evseId with
      | some e =>
        if bypass = false ∧ now - e.timestamp < 30000 then (GetResult.ok e.data, cache)
        else chargerResolve evseId vercel fetched now cache
      | none => chargerResolve evseId vercel fetched now cache

/-! ## Client reconciliation (src/src/lib/charger-data.ts) -/

/-- One entry of the userStatusStore written by updateChargerStatus
(charger-data.ts lines 98 to 104). -/
structure OverrideEntry where
  status : String
  lastUpdated : String
  updatedBy : String
deriving DecidableEq

/-- Fields of a successful JSON payload from the charger API as consumed by
getChargerData; the error field mirrors a possible error key in the body. -/
structure ApiData where
  evseId : String
  status : String
  statusText : Option String
  location : String
  operator : String
  address : String
  plugType : Option String
  power : Option String
  steckertyp : Option String
  leistung : Option String
  preis : Option String
  price : Option String
  lastUpdated : String
  isRealTime : Bool
  error : Option String
deriving DecidableEq

/-- The record returned by getChargerData (interface ChargerData of
charger-data.ts plus the fields a spread of the API payload carries along). -/
structure ChargerData where
  evseId : String
  status : String
  statusText : Option String
  location : String
  operator : String
  address : String
  plugType : Option String
  power : Option String
  steckertyp : Option String
  leistung : Option String
  preis : Option String
  price : Option String
  lastUpdated : String
  isRealTime : Bool
  updatedBy : String
  error : Option String
deriving DecidableEq

/-- Spread of the API payload into the returned record
(charger-data.ts lines 42 to 48 and 51 to 55). -/
def spreadApiData (d : ApiData) (lastUpdated updatedBy : String) : ChargerData :=
  { evseId := d.evseId, status := d.status, statusText := d.statusText,
    location := d.location, operator := d.operator, address := d.address,
    plugType := d.plugType, power := d.power, steckertyp := d.steckertyp,
    leistung := d.leistung, preis := d.preis, price := d.price,
    lastUpdated := lastUpdated, isRealTime := d.isRealTime,
    updatedBy := updatedBy, error := d.error }

/-- Last segment of the id (evseId.split on star, pop, or-default empty). -/
def lastSegment (evseId : String) : String :=
  ((evseId.splitOn "*").getLast?).getD ""

/-- Catch path of getChargerData (charger-data.ts lines 56 to 93).  fmt
stands for toLocaleTimeString applied to a stored ISO timestamp; now stands
for the formatted current time. -/
def chargerDataCatch (store : List (String × OverrideEntry)) (evseId : String)
    (errorMessage : String) (fmt : String → String) (now : String) : ChargerData :=
  match lookupA store evseId with
  | some e =>
    if e.updatedBy == "user" then
      { evseId := evseId, status := e.status,
        statusText := none,
        location := "Ladestation " ++ lastSegment evseId,
        operator := "Unknown", address := "Unknown",
        plugType := some "Unknown", power := some "Unknown",
        steckertyp := none, leistung := none, preis := none,
        price := some "Unknown",
        lastUpdated := fmt e.lastUpdated, isRealTime := false,
        updatedBy := "user", error := some errorMessage }
    else
      { evseId := evseId, status := "error",
        statusText := none,
        location := "Ladestation " ++ lastSegment evseId,
        operator := OPERATOR_NAME, address := "Unknown",
        plugType := some "Unknown", power := some "Unknown",
        steckertyp := none, leistung := none, preis := none,
        price := some "Unknown",
        lastUpdated := now, isRealTime := false,
        updatedBy := "system", error := some errorMessage }
  | none =>
    { evseId := evseId, status := "error",
      statusText := none,
      location := "Ladestation " ++ lastSegment evseId,
      operator := OPERATOR_NAME, address := "Unknown",
      plugType := some "Unknown", power := some "Unknown",
      steckertyp := none, leistung := none, preis := none,
      price := some "Unknown",
      lastUpdated := now, isRealTime := false,
      updatedBy := "system", error := some errorMessage }

/-- getChargerData (charger-data.ts lines 23 to 95).  fetchResult is the
combined fetch and JSON parse: Except.error for a network throw or a non-ok
response (the thrown message), Except.ok for a parsed payload.  A truthy
error field in the payload is rethrown and lands in the catch path. -/
def getChargerData (store : List (String × OverrideEntry)) (evseId : String)
    (fetchResult : Except String ApiData) (fmt : String → String) (now : String) :
    ChargerData :=
  match fetchResult with
  | Except.error msg => chargerDataCatch store evseId msg fmt now
  | Except.ok data =>
    match data.error with
    | some apiErr =>
      if apiErr = "" then
        match lookupA store evseId with
        | some e =>
          if e.updatedBy == "user" then
            spreadApiData { data with status := e.status } (fmt e.lastUpdated) "user"
          else spreadApiData data (fmt data.lastUpdated) "system"
        | none => spreadApiData data (fmt data.lastUpdated) "system"
      else chargerDataCatch store evseId apiErr fmt now
    | none =>
      match lookupA store evseId with
      | some e =>
        if e.updatedBy == "user" then
          spreadApiData { data with status := e.status } (fmt e.lastUpdated) "user"
        else spreadApiData data (fmt data.lastUpdated) "system"
      | none => spreadApiData data (fmt data.lastUpdated) "system"

/-! ## Manual status write endpoint (src/src/app/api/update-status/route.ts) -/

/-- The updatedData record built by the POST handler (lines 36 to 47). -/
structure UpdatedData where
  evseId : String
  status : String
  location : String
  operator : String
  address : String
  plugType : String
  power : String
  lastUpdated : Nat
  isRealTime : Bool
  manuallyUpdated : Bool
deriving DecidableEq

/-- Cache entry of the module-local cache of the write endpoint (lines 6 to 11). -/
structure UCacheEntry where
  data : UpdatedData
  timestamp : Nat
deriving DecidableEq

/-- Parsed request body of the POST handler; fields may be absent. -/
structure UpdateBody where
  evseId : Option String
  status : Option String
deriving DecidableEq

/-- Result of one POST on the write endpoint. -/
inductive PostResult where
  | clientError (error : String)
  | serverError (error message : String)
  | success (data : UpdatedData)
deriving DecidableEq

/-- The accepted status values of the write endpoint (line 23). -/
def validStatuses : List String := ["available", "charging", "error", "maintenance"]

/-- JavaScript falsiness of an optional string field: absent or empty. -/
def jsMissing (s : Option String) : Bool :=
  match s with
  | none => true
  | some v => v = ""

/-- The mock updated record (update-status/route.ts lines 36 to 47). -/
def updatedDataFor (evseId status : String) (now : Nat) : UpdatedData :=
  { evseId := evseId, status := status, location := "Charger " ++ evseId,
    operator := OPERATOR_NAME, address := "Dampfschiffweg 2, 21079 Hamburg",
    plugType := "Type 2 (Mennekes) (max. 22 kW)", power := "22 kW",
    lastUpdated := now, isRealTime := true, manuallyUpdated := true }

/-- One POST on the write endpoint (update-status/route.ts lines 13 to 70).
The ucache argument is the module-local cache of this file, a store separate
from the cache of the charger read route; body is the JSON parse outcome. -/
def updateStatusPOST (body : Except String UpdateBody) (now : Nat)
    (ucache : List (String × UCacheEntry)) : PostResult × List (String × UCacheEntry) :=
  match body with
  | Except.error msg => (PostResult.serverError "Failed to update status" msg, ucache)
  | Except.ok b =>
    if jsMissing b.evseId || jsMissing b.status then
      (PostResult.clientError "Missing required fields", ucache)
    else
      let evseId := b.evseId.getD ""
      let status := b.status.getD ""
      if validStatuses.contains status then
        let cacheKey := "charger_" ++ evseId
        let erased := eraseA ucache cacheKey
        let d := updatedDataFor evseId status now
        (PostResult.success d, insertA erased cacheKey ⟨d, now⟩)
      else
        (PostResult.clientError "Invalid status value", ucache)

/-! ## Plain-HTTP scraping endpoint (src/src/app/api/charger-info/route.ts) -/

/-- The registry map of charger-info/route.ts (only two chargers, lines 19 to 36). -/
def INFO_CHARGER_DATA (key : String) : Option ChargerInfo :=
  if key = "DE*MDS*E006234" then
    some ⟨"DE*MDS*E006234", "Ladestation 1", "Typ 2", "22 kW", "0,49 €/kWh", "Prien am Chiemsee, 83209"⟩
  else if key = "DE*MDS*E006198" then
    some ⟨"DE*MDS*E006198", "Ladestation 2", "Typ 2", "22 kW", "0,49 €/kWh", "Prien am Chiemsee, 83209"⟩
  else none

/-- Response payload of the charger-info route. -/
structure InfoResponse where
  evseId : String
  location : String
  operator : String
  address : String
  plugType : String
  power : String
  price : String
  status : String
  statusText : String
  lastUpdated : Nat
  isSimulated : Bool
  message : Option String
  error : Option String
deriving DecidableEq

/-- Result of one GET on the charger-info route. -/
inductive InfoResult where
  | badRequest (error : String)
  | fetchFail (error : String) (httpStatus : Nat)
  | serverError (error message : String)
  | ok (resp : InfoResponse)
deriving DecidableEq

/-- One status badge of the parsed document: class attribute (or-defaulted to
the empty string, line 155) and text content. -/
structure InfoBadge where
  className : String
  text : String
deriving DecidableEq

/-- Body of the badge loop (charger-info/route.ts lines 152 to 170): each
badge may overwrite the running (status, statusText) pair. -/
def infoBadgeStep (acc : String × String) (b : InfoBadge) : String × String :=
  let text := lowerStr (strTrim b.text)
  if strIncludes b.className "bg-success" || strIncludes text "available" || strIncludes text "verfügbar" then
    ("available", "Verfügbar")
  else if strIncludes b.className "bg-warning" || strIncludes text "maintenance" || strIncludes text "wartung" then
    ("maintenance", "Wartung")
  else if strIncludes b.className "bg-danger" || strIncludes text "error" || strIncludes text "fehler" then
    ("error", "Fehler")
  else if strIncludes b.className "bg-secondary" || strIncludes text "charging" || strIncludes text "besetzt" then
    ("charging", "Besetzt")
  else acc

/-- The catch path of charger-info (lines 186 to 216): registry data with
unknown status when available, a 500 payload otherwise. -/
def infoCatch (evseId : String) (msg : String) (now : Nat) : InfoResult :=
  match INFO_CHARGER_DATA evseId with
  | some cd =>
    InfoResult.ok
      { evseId := evseId, location := cd.location, operator := OPERATOR_NAME,
        address := cd.address, plugType := cd.steckertyp, power := cd.leistung,
        price := cd.preis, status := "unknown", statusText := "Unbekannt",
        lastUpdated := now, isSimulated := true, message := none, error := some msg }
  | none => InfoResult.serverError "Failed to fetch charger info" msg

/-- One GET on the charger-info route (lines 38 to 217).  fetchA and fetchB
are the two HTTP requests: Except.error for a thrown fetch, Except.ok with
the ok flag of the response otherwise; stA and stB are the status texts used
in the 502 payloads; html is the fetched body and badges the status badges
cheerio finds in it. -/
def chargerInfoGET (evseId? : Option String)
    (fetchA fetchB : Except String Bool) (stA stB : String)
    (html : String) (badges : List InfoBadge) (now : Nat) : InfoResult :=
  match evseId? with
  | none => InfoResult.badRequest "Missing evseId parameter"
  | some evseId =>
    if evseId = "" then InfoResult.badRequest "Missing evseId parameter"
    else
      match INFO_CHARGER_DATA evseId with
      | none => infoCatch evseId ("No data found for charger " ++ evseId) now
      | some cd =>
        match fetchA with
        | Except.error msg => infoCatch evseId msg now
        | Except.ok okA =>
          if okA = false then
            InfoResult.fetchFail ("Failed to fetch initial page: " ++ stA) 502
          else
            match fetchB with
            | Except.error msg => infoCatch evseId msg now
            | Except.ok okB =>
              if okB = false then
                InfoResult.fetchFail ("Failed to fetch charger data: " ++ stB) 502
              else if strIncludes html "Adhoc Payment" && !(strIncludes html "AUG. PRIEN") then
                InfoResult.ok
                  { evseId := evseId, location := cd.location, operator := OPERATOR_NAME,
                    address := cd.address, plugType := cd.steckertyp, power := cd.leistung,
                    price := cd.preis, status := "unknown", statusText := "Unbekannt",
                    lastUpdated := now, isSimulated := true,
                    message := some "Using local data because the website requires JavaScript rendering",
                    error := none }
              else
                let st := badges.foldl infoBadgeStep ("unknown", "Unbekannt")
                InfoResult.ok
                  { evseId := evseId, location := cd.location, operator := OPERATOR_NAME,
                    address := cd.address, plugType := cd.steckertyp, power := cd.leistung,
                    price := cd.preis, status := st.1, statusText := st.2,
                    lastUpdated := now, isSimulated := false, message := none, error := none }

/-! ## Concrete scenario inputs used by individual claims -/

/-- Concrete serve for claim C2: override charging is active while the API
payload carries status available and statusText Verfügbar. -/
def c2record : ChargerData :=
  getChargerData [("DE*MDS*E006234", ⟨"charging", "2024-01-01T00:00:00Z", "user"⟩)]
    "DE*MDS*E006234"
    (Except.ok
      { evseId := "DE*MDS*E006234", status := "available", statusText := some "Verfügbar",
        location := "Ladestation 1", operator := OPERATOR_NAME,
        address := "Prien am Chiemsee, 83209", plugType := some "Typ 2",
        power := some "22 kW", steckertyp := some "Typ 2", leistung := some "22 kW",
        preis := some "0,49 €/kWh", price := none,
        lastUpdated := "2024-01-01T00:00:05Z", isRealTime := true, error := none })
    (fun s => s) "12:00:00"

/-- Concrete failed resolution for claim C3. -/
def c3run : GetResult × List (String × CacheEntry) :=
  chargerGET (some "DE*MDS*E006234") false false (Except.error "timeout") 0 []

/-- Distinguishes a successful write-endpoint response. -/
def isPostSuccess : PostResult → Bool
  | PostResult.success _ => true
  | _ => false

/-- Concrete POST of the status unknown for claim C4. -/
def c4run : PostResult × List (String × UCacheEntry) :=
  updateStatusPOST (Except.ok ⟨some "DE*MDS*E006234", some "unknown"⟩) 0 []

/-- Vercel registry record of Ladestation 1, used in concrete runs. -/
def cd6234 : ChargerInfo :=
  ⟨"DE*MDS*E006234", "Ladestation 1", "Typ 2", "22 kW", "0,49 €/kWh", "Prien am Chiemsee, 83209"⟩

/-- First concrete read for claim C5: a successful resolution that caches
the deterministic record with status maintenance at time 0. -/
def c5first : GetResult × List (String × CacheEntry) :=
  chargerGET (some "DE*MDS*E006234") false true (Except.ok ⟨none, none, []⟩) 0 []

/-- Concrete write for claim C5: set status available at time 5000. -/
def c5post : PostResult × List (String × UCacheEntry) :=
  updateStatusPOST (Except.ok ⟨some "DE*MDS*E006234", some "available"⟩) 5000 []

/-- Second concrete read for claim C5 at time 10000, after the write. -/
def c5second : GetResult × List (String × CacheEntry) :=
  chargerGET (some "DE*MDS*E006234") false true (Except.ok ⟨none, none, []⟩) 10000 c5first.2

/-- First concrete failing read for claim C6 at time 0. -/
def c6first : GetResult × List (String × CacheEntry) :=
  chargerGET (some "DE*MDS*E006234") false false (Except.error "timeout") 0 []

/-- Second concrete failing read for claim C6 at time 1000, threaded through
the state left by the first. -/
def c6second : GetResult × List (String × CacheEntry) :=
  chargerGET (some "DE*MDS*E006234") false false (Except.error "timeout") 1000 c6first.2

/-- Concrete extraction input for claim C8: a badge with a present class
attribute that carries no known token, and the text Verfügbar. -/
def c8data : ExtractedData :=
  ⟨some "Verfügbar", some "badge rounded-pill bg-light", []⟩

/-! ## Shared lemmas -/

/-- Assignment followed by lookup of the same key yields the stored value. -/
theorem lookupA_insertA_self {α : Type} (m : List (String × α)) (k : String) (v : α) :
    lookupA (insertA m k v) k = some v := by
  simp [insertA, lookupA]

/-! ## Claims -/

/-- C10: the deterministic fallback-status function is total and
deterministic: every charger id is mapped into the four-element status list
(never unknown), the list index is always in bounds, and the id
DE*MDS*E006234 is always mapped to maintenance. -/
theorem getStatusForCharger_total :
    (∀ chargerId : String,
      getStatusForCharger chargerId ∈ ["available", "charging", "maintenance", "error"]) ∧
    (∀ chargerId : String,
      (chargerId.data.foldl (fun acc c => acc + c.toNat) 0) %
          (["available", "charging", "maintenance", "error"] : List String).length < 4) ∧
    getStatusForCharger "DE*MDS*E006234" = "maintenance" := by
  refine ⟨?_, ?_, by decide⟩
  · intro chargerId
    unfold getStatusForCharger
    by_cases h1 : chargerId = "DE*MDS*E006234"
    · simp [h1]
    · by_cases h2 : chargerId = "DE*MDS*E006198" ∨ chargerId = "DE*PRI*E000001" ∨
          chargerId = "DE*PRI*E000002"
      · simp [h1, h2]
      · simp only [h1, h2, if_false]
        have h4 : (chargerId.data.foldl (fun acc c => acc + c.toNat) 0) % 4 = 0 ∨
            (chargerId.data.foldl (fun acc c => acc + c.toNat) 0) % 4 = 1 ∨
            (chargerId.data.foldl (fun acc c => acc + c.toNat) 0) % 4 = 2 ∨
            (chargerId.data.foldl (fun acc c => acc + c.toNat) 0) % 4 = 3 := by omega
        rcases h4 with h | h | h | h <;> simp [h]
  · intro chargerId
    have : (["available", "charging", "maintenance", "error"] : List String).length = 4 := by decide
    rw [this]
    omega

/-- Core fact shared by the override claims: an active user override fixes
status and updatedBy of the served record on every fetch outcome. -/
theorem override_core (store : List (String × OverrideEntry)) (evseId : String)
    (fetchResult : Except String ApiData) (fmt : String → String) (now : String)
    (e : OverrideEntry) (hstore : lookupA store evseId = some e)
    (huser : e.updatedBy = "user") :
    (getChargerData store evseId fetchResult fmt now).status = e.status ∧
    (getChargerData store evseId fetchResult fmt now).updatedBy = "user" := by
  cases fetchResult with
  | error msg => simp [getChargerData, chargerDataCatch, hstore, huser]
  | ok data =>
    cases hdata : data.error with
    | none => simp [getChargerData, hdata, hstore, huser, spreadApiData]
    | some apiErr =>
      by_cases hae : apiErr = ""
      · simp [getChargerData, hdata, hae, hstore, huser, spreadApiData]
      · simp [getChargerData, chargerDataCatch, hdata, hae, hstore, huser]

/-- C1: whenever the user status store holds an override for the id with
updatedBy user, getChargerData serves that status with updatedBy user, for
every fetch outcome: success, payload carrying an error, or a throw. -/
theorem getChargerData_override_wins (store : List (String × OverrideEntry)) (evseId : String)
    (fetchResult : Except String ApiData) (fmt : String → String) (now : String)
    (e : OverrideEntry) (hstore : lookupA store evseId = some e)
    (huser : e.updatedBy = "user") :
    (getChargerData store evseId fetchResult fmt now).status = e.status ∧
    (getChargerData store evseId fetchResult fmt now).updatedBy = "user" :=
  override_core store evseId fetchResult fmt now e hstore huser

/-- C1 witness: a concrete override survives a concrete failed fetch. -/
theorem getChargerData_override_wins_witness :
    (getChargerData [("DE*MDS*E006234", ⟨"charging", "2024-01-01T00:00:00Z", "user"⟩)]
        "DE*MDS*E006234" (Except.error "network down") (fun s => s) "12:00:00").status
      = "charging" ∧
    (getChargerData [("DE*MDS*E006234", ⟨"charging", "2024-01-01T00:00:00Z", "user"⟩)]
        "DE*MDS*E006234" (Except.error "network down") (fun s => s) "12:00:00").updatedBy
      = "user" :=
  getChargerData_override_wins _ _ _ _ _ ⟨"charging", "2024-01-01T00:00:00Z", "user"⟩
    (by decide) rfl

/-- C2 counterexample: with an active charging override the served record
carries the override status and provenance, but its statusText stays the
extractor text Verfügbar instead of the text of the override status, so the
record does not reflect the override in all three claimed fields. -/
theorem c2_statusText_not_overridden :
    c2record.status = "charging" ∧ c2record.updatedBy = "user" ∧
    c2record.statusText = some "Verfügbar" ∧
    ¬ c2record.statusText = some (getStatusText c2record.status) := by
  refine ⟨by decide, by decide, by decide, by decide⟩

/-- C2 amended: while an override is active every served record reflects it
in status and updatedBy; statusText is not overlaid: on a successful fetch it
is passed through from the API payload, and on the failure path it is absent. -/
theorem getChargerData_override_fields (store : List (String × OverrideEntry)) (evseId : String)
    (fetchResult : Except String ApiData) (fmt : String → String) (now : String)
    (e : OverrideEntry) (hstore : lookupA store evseId = some e)
    (huser : e.updatedBy = "user") :
    (getChargerData store evseId fetchResult fmt now).status = e.status ∧
    (getChargerData store evseId fetchResult fmt now).updatedBy = "user" ∧
    (∀ data, fetchResult = Except.ok data → data.error = none →
      (getChargerData store evseId fetchResult fmt now).statusText = data.statusText) ∧
    (∀ msg, fetchResult = Except.error msg →
      (getChargerData store evseId fetchResult fmt now).statusText = none) := by
  refine ⟨(override_core store evseId fetchResult fmt now e hstore huser).1,
    (override_core store evseId fetchResult fmt now e hstore huser).2,
    ?_, ?_⟩
  · intro data hdata herr
    subst hdata
    simp [getChargerData, herr, hstore, huser, spreadApiData]
  · intro msg hmsg
    subst hmsg
    simp [getChargerData, chargerDataCatch, hstore, huser]

/-- C2 amended witness: concrete success and failure serves under an active
override. -/
theorem getChargerData_override_fields_witness :
    c2record.status = "charging" ∧ c2record.updatedBy = "user" ∧
    c2record.statusText = some "Verfügbar" :=
  have h := getChargerData_override_fields
    [("DE*MDS*E006234", ⟨"charging", "2024-01-01T00:00:00Z", "user"⟩)] "DE*MDS*E006234"
    (Except.ok
      { evseId := "DE*MDS*E006234", status := "available", statusText := some "Verfügbar",
        location := "Ladestation 1", operator := OPERATOR_NAME,
        address := "Prien am Chiemsee, 83209", plugType := some "Typ 2",
        power := some "22 kW", steckertyp := some "Typ 2", leistung := some "22 kW",
        preis := some "0,49 €/kWh", price := none,
        lastUpdated := "2024-01-01T00:00:05Z", isRealTime := true, error := none })
    (fun s => s) "12:00:00" ⟨"charging", "2024-01-01T00:00:00Z", "user"⟩ (by decide) rfl
  ⟨h.1, h.2.1, by
    have h3 := h.2.2.1 _ rfl rfl
    exact h3⟩

/-- C3 counterexample: on a concrete failed fetch for DE*MDS*E006234 the
route answers with the fallback record, whose isRealTime flag is true, not
false, and whose error message sits in the errorDetail field; the fallback
record is also not written to the cache. -/
theorem c3_fallback_isRealTime_true :
    c3run.1 = GetResult.ok (fallbackResponse "DE*MDS*E006234" "timeout" 0) ∧
    (fallbackResponse "DE*MDS*E006234" "timeout" 0).isRealTime = true ∧
    ¬ (fallbackResponse "DE*MDS*E006234" "timeout" 0).isRealTime = false ∧
    c3run.2 = [] := by
  refine ⟨by decide, by decide, by decide, by decide⟩

/-- C3 amended: on a cache miss with a thrown fetch the route returns the
fallback record: its status is getStatusForCharger of the id, hence identical
across repeated failed calls with different times and messages; its
isRealTime flag is true (not false as claimed); the thrown message is
attached in the errorDetail field, non-empty whenever the message is; and
the cache is left unchanged. -/
theorem chargerGET_failure_deterministic (evseId msg msg2 : String) (now now2 : Nat)
    (cache : List (String × CacheEntry)) (hid : ¬ evseId = "")
    (hc : lookupA cache evseId = none) :
    chargerGET (some evseId) false false (Except.error msg) now cache
      = (GetResult.ok (fallbackResponse evseId msg now), cache) ∧
    (fallbackResponse evseId msg now).status = getStatusForCharger evseId ∧
    (fallbackResponse evseId msg2 now2).status = (fallbackResponse evseId msg now).status ∧
    (fallbackResponse evseId msg now).isRealTime = true ∧
    (fallbackResponse evseId msg now).errorDetail = some msg := by
  refine ⟨?_, rfl, rfl, rfl, rfl⟩
  simp [chargerGET, chargerResolve, hid, hc]

/-- C3 witness: two concrete failed calls for DE*MDS*E006234 at different
times with different messages agree on the status maintenance. -/
theorem chargerGET_failure_deterministic_witness :
    chargerGET (some "DE*MDS*E006234") false false (Except.error "timeout") 0 []
      = (GetResult.ok (fallbackResponse "DE*MDS*E006234" "timeout" 0), []) ∧
    (fallbackResponse "DE*MDS*E006234" "timeout" 0).status = "maintenance" ∧
    (fallbackResponse "DE*MDS*E006234" "refused" 9000).status = "maintenance" ∧
    (fallbackResponse "DE*MDS*E006234" "timeout" 0).errorDetail = some "timeout" :=
  have h := chargerGET_failure_deterministic "DE*MDS*E006234" "timeout" "refused" 0 9000 []
    (by decide) rfl
  ⟨h.1, h.2.1.trans (by decide), (h.2.2.1.trans h.2.1).trans (by decide), h.2.2.2.2⟩

/-- C4 counterexample: the status unknown, although part of the canonical
enum of the spec, is rejected by the write endpoint with the invalid-status
client error, so the operation does not succeed exactly on the claimed
five-element enum. -/
theorem c4_unknown_rejected :
    c4run = (PostResult.clientError "Invalid status value", []) ∧
    isPostSuccess c4run.1 = false := by
  refine ⟨by decide, by decide⟩

/-- C4 amended: the write endpoint succeeds exactly for status values in
the list available, charging, error, maintenance (the canonical enum minus
unknown, which is rejected like any other value outside the list); on a
missing field or an out-of-list status it returns a client-error response
and leaves its cache untouched. -/
theorem updateStatusPOST_validation (b : UpdateBody) (now : Nat)
    (ucache : List (String × UCacheEntry)) :
    ((jsMissing b.evseId || jsMissing b.status) = true →
      updateStatusPOST (Except.ok b) now ucache
        = (PostResult.clientError "Missing required fields", ucache)) ∧
    ((jsMissing b.evseId || jsMissing b.status) = false →
      validStatuses.contains (b.status.getD "") = false →
      updateStatusPOST (Except.ok b) now ucache
        = (PostResult.clientError "Invalid status value", ucache)) ∧
    ((jsMissing b.evseId || jsMissing b.status) = false →
      validStatuses.contains (b.status.getD "") = true →
      updateStatusPOST (Except.ok b) now ucache
        = (PostResult.success (updatedDataFor (b.evseId.getD "") (b.status.getD "") now),
           insertA (eraseA ucache ("charger_" ++ b.evseId.getD ""))
             ("charger_" ++ b.evseId.getD "")
             ⟨updatedDataFor (b.evseId.getD "") (b.status.getD "") now, now⟩)) := by
  refine ⟨?_, ?_, ?_⟩
  · intro hmiss
    simp [updateStatusPOST, hmiss]
  · intro hmiss hinv
    have h2 : b.status.getD "" ∉ validStatuses := by simpa using hinv
    simp [updateStatusPOST, hmiss, h2]
  · intro hmiss hval
    have h2 : b.status.getD "" ∈ validStatuses := by simpa using hval
    simp [updateStatusPOST, hmiss, h2]

/-- C4 witness: concrete rejected and accepted writes. -/
theorem updateStatusPOST_validation_witness :
    updateStatusPOST (Except.ok ⟨some "DE*MDS*E006234", some "bogus"⟩) 0 []
      = (PostResult.clientError "Invalid status value", []) ∧
    updateStatusPOST (Except.ok ⟨some "DE*MDS*E006234", none⟩) 0 []
      = (PostResult.clientError "Missing required fields", []) ∧
    updateStatusPOST (Except.ok ⟨some "DE*MDS*E006234", some "available"⟩) 7 []
      = (PostResult.success (updatedDataFor "DE*MDS*E006234" "available" 7),
         [("charger_DE*MDS*E006234", ⟨updatedDataFor "DE*MDS*E006234" "available" 7, 7⟩)]) :=
  ⟨(updateStatusPOST_validation ⟨some "DE*MDS*E006234", some "bogus"⟩ 0 []).2.1
      (by decide) (by decide),
   (updateStatusPOST_validation ⟨some "DE*MDS*E006234", none⟩ 0 []).1 (by decide),
   ((updateStatusPOST_validation ⟨some "DE*MDS*E006234", some "available"⟩ 7 []).2.2
      (by decide) (by decide)).trans (by decide)⟩

/-- Shared cache fact: with a fresh entry and no bypass, the read route
serves the cached record and leaves the cache unchanged. -/
theorem chargerGET_cache_hit (evseId : String) (v : Bool) (f : Except String ExtractedData)
    (now : Nat) (cache : List (String × CacheEntry)) (e : CacheEntry)
    (hid : ¬ evseId = "") (hc : lookupA cache evseId = some e)
    (hfresh : now - e.timestamp < 30000) :
    chargerGET (some evseId) false v f now cache = (GetResult.ok e.data, cache) := by
  simp [chargerGET, hid, hc, hfresh]

/-- C5 counterexample: the write succeeds, but the subsequent read within
the TTL still serves the record cached before the write, with the old status
maintenance and no user provenance, because the write endpoint deletes only
from its own module-local cache keyed charger_ and never touches the cache
of the read route. -/
theorem c5_stale_after_write :
    isPostSuccess c5post.1 = true ∧
    c5second.1 = GetResult.ok (vercelResponse "DE*MDS*E006234" cd6234 0) ∧
    (vercelResponse "DE*MDS*E006234" cd6234 0).status = "maintenance" ∧
    ¬ (vercelResponse "DE*MDS*E006234" cd6234 0).status = "available" := by
  refine ⟨by decide, by decide, by decide, by decide⟩

/-- C5 amended: a successful manual write deletes and rewrites the entry
keyed charger_ plus the id in the module-local cache of the write endpoint
only; the cache consulted by the read route is a separate store it never
modifies, so a subsequent no-bypass read within the TTL still serves the
previously cached record unchanged. -/
theorem updateStatusPOST_local_cache_only (id s : String) (now1 now2 : Nat)
    (ucache : List (String × UCacheEntry)) (ccache : List (String × CacheEntry))
    (e : CacheEntry) (v : Bool) (f : Except String ExtractedData)
    (hid : ¬ id = "") (hs : s ∈ validStatuses)
    (hc : lookupA ccache id = some e) (hfresh : now2 - e.timestamp < 30000) :
    (updateStatusPOST (Except.ok ⟨some id, some s⟩) now1 ucache).1
      = PostResult.success (updatedDataFor id s now1) ∧
    (updateStatusPOST (Except.ok ⟨some id, some s⟩) now1 ucache).2
      = insertA (eraseA ucache ("charger_" ++ id)) ("charger_" ++ id)
          ⟨updatedDataFor id s now1, now1⟩ ∧
    lookupA (updateStatusPOST (Except.ok ⟨some id, some s⟩) now1 ucache).2 ("charger_" ++ id)
      = some ⟨updatedDataFor id s now1, now1⟩ ∧
    chargerGET (some id) false v f now2 ccache = (GetResult.ok e.data, ccache) := by
  have hsne : ¬ s = "" := by
    intro h
    subst h
    simp [validStatuses] at hs
  have hpost : updateStatusPOST (Except.ok ⟨some id, some s⟩) now1 ucache
      = (PostResult.success (updatedDataFor id s now1),
         insertA (eraseA ucache ("charger_" ++ id)) ("charger_" ++ id)
           ⟨updatedDataFor id s now1, now1⟩) := by
    simp [updateStatusPOST, jsMissing, hid, hsne, hs]
  refine ⟨by rw [hpost], by rw [hpost], ?_, ?_⟩
  · rw [hpost]
    exact lookupA_insertA_self _ _ _
  · exact chargerGET_cache_hit id v f now2 ccache e hid hc hfresh

/-- C5 witness: the concrete scenario of the counterexample, driven through
the amended theorem. -/
theorem updateStatusPOST_local_cache_only_witness :
    c5post.1 = PostResult.success (updatedDataFor "DE*MDS*E006234" "available" 5000) ∧
    lookupA c5post.2 ("charger_" ++ "DE*MDS*E006234")
      = some ⟨updatedDataFor "DE*MDS*E006234" "available" 5000, 5000⟩ ∧
    c5second = (GetResult.ok (vercelResponse "DE*MDS*E006234" cd6234 0), c5first.2) :=
  have h := updateStatusPOST_local_cache_only "DE*MDS*E006234" "available" 5000 10000 []
    c5first.2 ⟨vercelResponse "DE*MDS*E006234" cd6234 0, 0⟩ true (Except.ok ⟨none, none, []⟩)
    (by decide) (by decide) (by decide) (by decide)
  ⟨h.1, h.2.2.1, h.2.2.2⟩

/-- C6 counterexample: when the first resolution throws, no cache entry is
written, so a second call one second later re-resolves and returns a record
differing in lastUpdated: the two consecutive in-window calls are not
identical. -/
theorem c6_failed_calls_differ :
    c6first.1 = GetResult.ok (fallbackResponse "DE*MDS*E006234" "timeout" 0) ∧
    c6second.1 = GetResult.ok (fallbackResponse "DE*MDS*E006234" "timeout" 1000) ∧
    c6first.2 = [] ∧
    ¬ c6first.1 = c6second.1 := by
  refine ⟨by decide, by decide, by decide, by decide⟩

/-- C6 amended: when the first call resolves through a success branch, which
writes the cache entry, a second no-bypass call within 30 seconds is served
from that entry and returns the identical record, whatever branch or fetch
outcome the second call would otherwise have used, and leaves the cache
unchanged. -/
theorem chargerGET_cache_stability (evseId : String) (v1 v2 : Bool)
    (f1 f2 : Except String ExtractedData) (t1 t2 : Nat)
    (cache0 : List (String × CacheEntry)) (r1 : ChargerResponse)
    (hid : ¬ evseId = "")
    (hfirst : chargerGET (some evseId) false v1 f1 t1 cache0
      = (GetResult.ok r1, insertA cache0 evseId ⟨r1, t1⟩))
    (hwin : t2 - t1 < 30000) :
    chargerGET (some evseId) false v2 f2 t2 (chargerGET (some evseId) false v1 f1 t1 cache0).2
      = (GetResult.ok r1, insertA cache0 evseId ⟨r1, t1⟩) := by
  rw [hfirst]
  exact chargerGET_cache_hit evseId v2 f2 t2 _ ⟨r1, t1⟩ hid
    (lookupA_insertA_self cache0 evseId ⟨r1, t1⟩) hwin

/-- C6 witness: a concrete successful first call followed by a concrete
in-window second call with a different fetch outcome returns the same record. -/
theorem chargerGET_cache_stability_witness :
    chargerGET (some "DE*PRI*E000001") false false (Except.error "timeout") 20000
        (chargerGET (some "DE*PRI*E000001") false true (Except.ok ⟨none, none, []⟩) 0 []).2
      = (GetResult.ok (vercelResponse "DE*PRI*E000001"
            ⟨"DE*PRI*E000001", "Ladestation 3", "CCS", "50 kW", "0,59 €/kWh", "Prien am Chiemsee, 83209"⟩ 0),
         insertA [] "DE*PRI*E000001"
           ⟨vercelResponse "DE*PRI*E000001"
              ⟨"DE*PRI*E000001", "Ladestation 3", "CCS", "50 kW", "0,59 €/kWh", "Prien am Chiemsee, 83209"⟩ 0, 0⟩) :=
  chargerGET_cache_stability "DE*PRI*E000001" true false (Except.ok ⟨none, none, []⟩)
    (Except.error "timeout") 0 20000 [] _ (by decide) (by decide) (by decide)

/-- C7 counterexample: a badge whose class carries the primary token and
whose text is Occupied maps to unknown, not to charging as claimed: the
class mapping knows no primary or info token, and the only text the class
branch consults is besetzt. -/
theorem c7_primary_occupied_unknown :
    getBadgeStatusMap "badge rounded-pill bg-primary" "Occupied" = "unknown" ∧
    ¬ getBadgeStatusMap "badge rounded-pill bg-primary" "Occupied" = "charging" := by
  refine ⟨by decide, by decide⟩

/-- C7 amended: the class mapping takes a success token to available, a
warning token to maintenance, a danger token to error, and a secondary token
or the text besetzt to charging; primary and info tokens and the text
occupied are not recognized and fall through to unknown; in particular
bg-success with text Verfügbar yields available and bg-secondary with text
Besetzt yields charging. -/
theorem getBadgeStatusMap_characterization (cls txt : String) :
    (strIncludes cls "bg-success" = true → getBadgeStatusMap cls txt = "available") ∧
    (strIncludes cls "bg-success" = false → strIncludes cls "bg-warning" = true →
      getBadgeStatusMap cls txt = "maintenance") ∧
    (strIncludes cls "bg-success" = false → strIncludes cls "bg-warning" = false →
      strIncludes cls "bg-danger" = true → getBadgeStatusMap cls txt = "error") ∧
    (strIncludes cls "bg-success" = false → strIncludes cls "bg-warning" = false →
      strIncludes cls "bg-danger" = false →
      (strIncludes cls "bg-secondary" || strIncludes (lowerStr txt) "besetzt") = true →
      getBadgeStatusMap cls txt = "charging") ∧
    (strIncludes cls "bg-success" = false → strIncludes cls "bg-warning" = false →
      strIncludes cls "bg-danger" = false → strIncludes cls "bg-secondary" = false →
      strIncludes (lowerStr txt) "besetzt" = false →
      getBadgeStatusMap cls txt = "unknown") ∧
    getBadgeStatusMap "badge rounded-pill bg-success" "Verfügbar" = "available" ∧
    getBadgeStatusMap "badge rounded-pill bg-secondary" "Besetzt" = "charging" := by
  refine ⟨?_, ?_, ?_, ?_, ?_, by decide, by decide⟩
  · intro h1
    simp [getBadgeStatusMap, h1]
  · intro h1 h2
    simp [getBadgeStatusMap, h1, h2]
  · intro h1 h2 h3
    simp [getBadgeStatusMap, h1, h2, h3]
  · intro h1 h2 h3 h4
    simp [getBadgeStatusMap, h1, h2, h3, h4]
  · intro h1 h2 h3 h4 h5
    simp [getBadgeStatusMap, h1, h2, h3, h4, h5]

/-- C7 witness: concrete applications of the characterization. -/
theorem getBadgeStatusMap_characterization_witness :
    getBadgeStatusMap "badge bg-success" "x" = "available" ∧
    getBadgeStatusMap "badge bg-light" "Besetzt" = "charging" ∧
    getBadgeStatusMap "badge bg-light" "frei" = "unknown" :=
  ⟨(getBadgeStatusMap_characterization "badge bg-success" "x").1 (by decide),
   (getBadgeStatusMap_characterization "badge bg-light" "Besetzt").2.2.2.1
     (by decide) (by decide) (by decide) (by decide),
   (getBadgeStatusMap_characterization "badge bg-light" "frei").2.2.2.2.1
     (by decide) (by decide) (by decide) (by decide) (by decide)⟩

/-- C8 counterexample: with a class attribute present but matching no known
token, the extractor does not fall back to text matching: the text Verfügbar
is ignored and the status stays unknown instead of the claimed available. -/
theorem c8_no_text_fallback_with_class :
    (extractStatus c8data).1 = "unknown" ∧
    ¬ (extractStatus c8data).1 = "available" := by
  refine ⟨by decide, by decide⟩

/-- C8 amended: the keyword fallback runs only when the badge has no class
attribute (or an empty one); its sets are available or verfügbar, maintenance
or wartung, error or fehler, charging or besetzt, case-insensitively, and
free and occupied belong to no set; when a class attribute is present but
contains no known token, the only text consulted is besetzt (yielding
charging), otherwise the status is unknown. -/
theorem extractStatus_characterization (txt cls : String) (prices : List String)
    (htxt : ¬ txt = "") :
    ((strIncludes (lowerStr txt) "available" || strIncludes (lowerStr txt) "verfügbar") = true →
      extractStatus ⟨some txt, none, prices⟩ = ("available", txt)) ∧
    ((strIncludes (lowerStr txt) "available" || strIncludes (lowerStr txt) "verfügbar") = false →
      (strIncludes (lowerStr txt) "maintenance" || strIncludes (lowerStr txt) "wartung") = true →
      extractStatus ⟨some txt, none, prices⟩ = ("maintenance", txt)) ∧
    ((strIncludes (lowerStr txt) "available" || strIncludes (lowerStr txt) "verfügbar") = false →
      (strIncludes (lowerStr txt) "maintenance" || strIncludes (lowerStr txt) "wartung") = false →
      (strIncludes (lowerStr txt) "error" || strIncludes (lowerStr txt) "fehler") = true →
      extractStatus ⟨some txt, none, prices⟩ = ("error", txt)) ∧
    ((strIncludes (lowerStr txt) "available" || strIncludes (lowerStr txt) "verfügbar") = false →
      (strIncludes (lowerStr txt) "maintenance" || strIncludes (lowerStr txt) "wartung") = false →
      (strIncludes (lowerStr txt) "error" || strIncludes (lowerStr txt) "fehler") = false →
      (strIncludes (lowerStr txt) "charging" || strIncludes (lowerStr txt) "besetzt") = true →
      extractStatus ⟨some txt, none, prices⟩ = ("charging", txt)) ∧
    ((strIncludes (lowerStr txt) "available" || strIncludes (lowerStr txt) "verfügbar") = false →
      (strIncludes (lowerStr txt) "maintenance" || strIncludes (lowerStr txt) "wartung") = false →
      (strIncludes (lowerStr txt) "error" || strIncludes (lowerStr txt) "fehler") = false →
      (strIncludes (lowerStr txt) "charging" || strIncludes (lowerStr txt) "besetzt") = false →
      extractStatus ⟨some txt, none, prices⟩ = ("unknown", txt)) ∧
    (¬ cls = "" → strIncludes cls "bg-success" = false → strIncludes cls "bg-warning" = false →
      strIncludes cls "bg-danger" = false → strIncludes cls "bg-secondary" = false →
      strIncludes (lowerStr txt) "besetzt" = true →
      extractStatus ⟨some txt, some cls, prices⟩ = ("charging", txt)) ∧
    (¬ cls = "" → strIncludes cls "bg-success" = false → strIncludes cls "bg-warning" = false →
      strIncludes cls "bg-danger" = false → strIncludes cls "bg-secondary" = false →
      strIncludes (lowerStr txt) "besetzt" = false →
      extractStatus ⟨some txt, some cls, prices⟩ = ("unknown", txt)) ∧
    extractStatus ⟨some "Free", none, []⟩ = ("unknown", "Free") ∧
    extractStatus ⟨some "Occupied", none, []⟩ = ("unknown", "Occupied") := by
  refine ⟨?_, ?_, ?_, ?_, ?_, ?_, ?_, by decide, by decide⟩
  · intro h1
    simp [extractStatus, htxt, h1]
  · intro h1 h2
    simp [extractStatus, htxt, h1, h2]
  · intro h1 h2 h3
    simp [extractStatus, htxt, h1, h2, h3]
  · intro h1 h2 h3 h4
    simp [extractStatus, htxt, h1, h2, h3, h4]
  · intro h1 h2 h3 h4
    simp [extractStatus, htxt, h1, h2, h3, h4]
  · intro hcls h1 h2 h3 h4 h5
    simp [extractStatus, htxt, hcls, h1, h2, h3, h4, h5]
  · intro hcls h1 h2 h3 h4 h5
    simp [extractStatus, htxt, hcls, h1, h2, h3, h4, h5]

/-- C8 witness: concrete applications of the characterization. -/
theorem extractStatus_characterization_witness :
    extractStatus ⟨some "Wartung", none, []⟩ = ("maintenance", "Wartung") ∧
    extractStatus ⟨some "Besetzt", some "badge bg-light", []⟩ = ("charging", "Besetzt") ∧
    extractStatus ⟨some "Verfügbar", some "badge bg-light", []⟩ = ("unknown", "Verfügbar") :=
  ⟨(extractStatus_characterization "Wartung" "" [] (by decide)).2.1 (by decide) (by decide),
   (extractStatus_characterization "Besetzt" "badge bg-light" [] (by decide)).2.2.2.2.2.1
     (by decide) (by decide) (by decide) (by decide) (by decide) (by decide),
   (extractStatus_characterization "Verfügbar" "badge bg-light" [] (by decide)).2.2.2.2.2.2.1
     (by decide) (by decide) (by decide) (by decide) (by decide) (by decide)⟩

/-- C9: when both fetches succeed but the body is the landing page, detected
by the payment marker without the operator name, the charger-info route
performs no extraction: the response is the registry-based simulated record
with status unknown, independent of whatever badges the document contains,
and the catch path used for a thrown fetch builds the same registry-based
simulated record, differing only in carrying the error message instead of
the informational message. -/
theorem chargerInfoGET_interstitial (evseId : String) (cd : ChargerInfo) (stA stB : String)
    (html : String) (badges badges2 : List InfoBadge) (now : Nat)
    (hreg : INFO_CHARGER_DATA evseId = some cd)
    (hpay : strIncludes html "Adhoc Payment" = true)
    (hop : strIncludes html "AUG. PRIEN" = false) :
    chargerInfoGET (some evseId) (Except.ok true) (Except.ok true) stA stB html badges now
      = InfoResult.ok
          { evseId := evseId, location := cd.location, operator := OPERATOR_NAME,
            address := cd.address, plugType := cd.steckertyp, power := cd.leistung,
            price := cd.preis, status := "unknown", statusText := "Unbekannt",
            lastUpdated := now, isSimulated := true,
            message := some "Using local data because the website requires JavaScript rendering",
            error := none } ∧
    chargerInfoGET (some evseId) (Except.ok true) (Except.ok true) stA stB html badges now
      = chargerInfoGET (some evseId) (Except.ok true) (Except.ok true) stA stB html badges2 now ∧
    (∀ msg, infoCatch evseId msg now
      = InfoResult.ok
          { evseId := evseId, location := cd.location, operator := OPERATOR_NAME,
            address := cd.address, plugType := cd.steckertyp, power := cd.leistung,
            price := cd.preis, status := "unknown", statusText := "Unbekannt",
            lastUpdated := now, isSimulated := true, message := none,
            error := some msg }) := by
  have hid : ¬ evseId = "" := by
    intro h
    subst h
    simp [INFO_CHARGER_DATA] at hreg
  have hmain : ∀ bs : List InfoBadge,
      chargerInfoGET (some evseId) (Except.ok true) (Except.ok true) stA stB html bs now
        = InfoResult.ok
            { evseId := evseId, location := cd.location, operator := OPERATOR_NAME,
              address := cd.address, plugType := cd.steckertyp, power := cd.leistung,
              price := cd.preis, status := "unknown", statusText := "Unbekannt",
              lastUpdated := now, isSimulated := true,
              message := some "Using local data because the website requires JavaScript rendering",
              error := none } := by
    intro bs
    simp [chargerInfoGET, hid, hreg, hpay, hop]
  refine ⟨hmain badges, (hmain badges).trans (hmain badges2).symm, ?_⟩
  intro msg
  simp [infoCatch, hreg]

/-- C9 witness: a concrete landing page with a success badge in it is still
answered by the simulated registry record for Ladestation 1. -/
theorem chargerInfoGET_interstitial_witness :
    chargerInfoGET (some "DE*MDS*E006234") (Except.ok true) (Except.ok true) "OK" "OK"
        "header Adhoc Payment footer" [⟨"badge bg-success", "Verfügbar"⟩] 42
      = InfoResult.ok
          { evseId := "DE*MDS*E006234", location := "Ladestation 1", operator := OPERATOR_NAME,
            address := "Prien am Chiemsee, 83209", plugType := "Typ 2", power := "22 kW",
            price := "0,49 €/kWh", status := "unknown", statusText := "Unbekannt",
            lastUpdated := 42, isSimulated := true,
            message := some "Using local data because the website requires JavaScript rendering",
            error := none } :=
  (chargerInfoGET_interstitial "DE*MDS*E006234"
    ⟨"DE*MDS*E006234", "Ladestation 1", "Typ 2", "22 kW", "0,49 €/kWh", "Prien am Chiemsee, 83209"⟩
    "OK" "OK" "header Adhoc Payment footer" [⟨"badge bg-success", "Verfügbar"⟩] [] 42
    (by decide) (by decide) (by decide)).1
